import Mathlib

/-!
A shallow embedding of the DB-API client layer specified in spec.md (the
sqlite3 wrapper whose behavioral contract is fixed by
src/Lib/test/test_sqlite3/test_dbapi.py).  The implementation of the layer
itself (the C module behind the `sqlite3` package) is not part of the
source tree, which contains only its test suite; the definitions below are
therefore modelled from the specification, with the in-tree tests fixing
the observed contract wherever they speak to it.
-/

namespace Sqlite

/-! ## Exception taxonomy (spec §3, §4.4) -/

/-- Modelled from the spec: the exception taxonomy of §3, flattened to one
kind per class, together with the host-language exception kinds the tests
observe escaping the layer (ValueError, TypeError, ZeroDivisionError,
UnicodeEncodeError). The implementation module is absent from the tree. -/
inductive ExcKind where
  | warning
  | interfaceError
  | databaseError
  | dataError
  | operationalError
  | integrityError
  | internalError
  | programmingError
  | notSupportedError
  | valueError
  | typeError
  | zeroDivisionError
  | unicodeEncodeError
  deriving DecidableEq

/-- Whether a kind belongs to the DatabaseError subtree of the taxonomy. -/
def ExcKind.isDatabaseFamily : ExcKind → Bool
  | .databaseError | .dataError | .operationalError | .integrityError
  | .internalError | .programmingError | .notSupportedError => true
  | _ => false

/-- Modelled from the spec: an exception value; DatabaseError-family
instances carry the engine result code and its symbolic name as the
structured fields sqlite_errorcode / sqlite_errorname (spec §3, §6). -/
structure PyExc where
  kind : ExcKind
  msg : String := ""
  sqlite_errorcode : Nat := 0
  sqlite_errorname : String := ""
  deriving DecidableEq

/-! ## Isolation levels (spec §6) -/

/-- Modelled from the spec: the accepted isolation levels. `autocommit` is
the sentinel (Python None); `empty` is the literal string value. -/
inductive IsolationLevel where
  | autocommit
  | empty
  | deferred
  | immediate
  | exclusive
  deriving DecidableEq

def isolationLevelValueErr : PyExc :=
  { kind := .valueError,
    msg := "isolation_level string must be empty, DEFERRED, IMMEDIATE, or EXCLUSIVE" }

/-- Modelled from the spec (§6 isolation-level surface): the only accepted
values are None and the four literal strings; anything else is rejected at
construction time with a ValueError. -/
def parseIsolationLevel : Option String → Except PyExc IsolationLevel
  | none => .ok .autocommit
  | some s =>
    if s = "" then .ok .empty
    else if s = "DEFERRED" then .ok .deferred
    else if s = "IMMEDIATE" then .ok .immediate
    else if s = "EXCLUSIVE" then .ok .exclusive
    else .error isolationLevelValueErr

/-! ## Connection state (spec §3, §4.1) -/

/-- Modelled from the spec: the observable Connection state needed by the
claims — the closed flag, the transaction flag, the configured isolation
level, the monotonic change counter, and (because the test suite constructs
a Connection whose base initializer never ran) an `initialized` flag. -/
structure Connection where
  initialized : Bool := true
  closed : Bool := false
  isolation_level : IsolationLevel := .empty
  in_transaction : Bool := false
  total_changes : Nat := 0
  deriving DecidableEq

/-- A freshly opened connection with the default isolation level. -/
def freshConn : Connection := {}

/-- A connection that has been opened and then closed. -/
def closedConn : Connection := { closed := true }

/-- A Connection allocated without its base initializer having run. -/
def uninitConn : Connection := { initialized := false }

def baseInitErr : PyExc :=
  { kind := .programmingError, msg := "Base Connection.__init__ not called" }

def closedErr : PyExc :=
  { kind := .programmingError, msg := "Cannot operate on a closed database." }

/-! ## Statements and the transaction boundary (spec §4.1) -/

/-- The statement kinds the transaction-boundary algorithm distinguishes. -/
inductive Stmt where
  | select
  | insert
  | update
  | delete
  | replaceInto
  | createTable
  deriving DecidableEq

/-- Whether a statement is DML (INSERT/UPDATE/DELETE/REPLACE). -/
def Stmt.isDml : Stmt → Bool
  | .insert | .update | .delete | .replaceInto => true
  | .select | .createTable => false

/-- Modelled from the spec (§4.1 transaction-boundary algorithm), with the
trigger set fixed by test_dbapi.py test_in_transaction: when the isolation
level is not the autocommit sentinel and no transaction is open, a DML
statement (INSERT/UPDATE/DELETE/REPLACE) implicitly issues a BEGIN before
executing; the in-tree test asserts that CREATE TABLE leaves in_transaction
false, so DDL does not trigger the implicit BEGIN. The returned Bool
records whether an implicit BEGIN was issued. -/
def execStmt (c : Connection) (s : Stmt) : Connection × Bool :=
  if c.isolation_level ≠ IsolationLevel.autocommit ∧ c.in_transaction = false ∧
      s.isDml = true then
    ({ c with in_transaction := true }, true)
  else
    (c, false)

/-! ## Connection operations (spec §4.1; tests ClosedConTests,
UninitialisedConnectionTests) -/

/-- The Connection operations and attribute reads exercised by the claims. -/
inductive ConnOp where
  | execute
  | executemany
  | executescriptOp
  | cursor
  | commit
  | rollback
  | createFunction
  | enterContext
  | close
  | iterdump
  | isolationLevelAttr
  | totalChangesAttr
  | inTransactionAttr
  deriving DecidableEq

/-- The result of a successful Connection operation. -/
inductive OpResult where
  | unit
  | iso (l : IsolationLevel)
  | nat (n : Nat)
  | bool (b : Bool)
  deriving DecidableEq

/-- Modelled from the spec (§4.1) and the in-tree tests: every operation
first fails with ProgrammingError if the base initializer never ran
(UninitialisedConnectionTests); on a closed connection every operation
fails with ProgrammingError except a second close, which is a no-op
(spec §3 Connection invariants, ClosedConTests); commit and rollback clear
the transaction flag; close sets the closed flag. -/
def runConnOp (c : Connection) (op : ConnOp) : Except PyExc (Connection × OpResult) :=
  if c.initialized = false then
    .error baseInitErr
  else if c.closed = true then
    if op == ConnOp.close then .ok (c, OpResult.unit) else .error closedErr
  else if op == ConnOp.close then
    .ok ({ c with closed := true }, OpResult.unit)
  else if op == ConnOp.commit || op == ConnOp.rollback then
    .ok ({ c with in_transaction := false }, OpResult.unit)
  else if op == ConnOp.isolationLevelAttr then
    .ok (c, OpResult.iso c.isolation_level)
  else if op == ConnOp.totalChangesAttr then
    .ok (c, OpResult.nat c.total_changes)
  else if op == ConnOp.inTransactionAttr then
    .ok (c, OpResult.bool c.in_transaction)
  else
    .ok (c, OpResult.unit)

/-- The Connection methods that must raise ProgrammingError once the
connection is closed (test_use_after_close, ClosedConTests). -/
def closedCheckedOps : List ConnOp :=
  [ConnOp.execute, ConnOp.executemany, ConnOp.executescriptOp, ConnOp.cursor,
   ConnOp.commit, ConnOp.rollback, ConnOp.createFunction, ConnOp.enterContext]

/-- The Cursor operations exercised against a closed connection. -/
inductive CursorOp where
  | execute
  | executemany
  | executescriptOp
  | fetchone
  | fetchmany
  | fetchall
  deriving DecidableEq

/-- Modelled from the spec (§4.1 close: invalidates all live Cursors;
subsequent use fails with ProgrammingError) and test_use_after_close:
every Cursor operation checks the owning Connection first. -/
def runCursorOp (c : Connection) (_op : CursorOp) : Except PyExc Unit :=
  if c.initialized = false then .error baseInitErr
  else if c.closed = true then .error closedErr
  else .ok ()

/-! ## Result codes and the error taxonomy (spec §4.4, §6) -/

def SQLITE_OK : Nat := 0
def SQLITE_ERROR : Nat := 1
def SQLITE_INTERNAL : Nat := 2
def SQLITE_PERM : Nat := 3
def SQLITE_ABORT : Nat := 4
def SQLITE_BUSY : Nat := 5
def SQLITE_LOCKED : Nat := 6
def SQLITE_NOMEM : Nat := 7
def SQLITE_READONLY : Nat := 8
def SQLITE_INTERRUPT : Nat := 9
def SQLITE_IOERR : Nat := 10
def SQLITE_CORRUPT : Nat := 11
def SQLITE_NOTFOUND : Nat := 12
def SQLITE_FULL : Nat := 13
def SQLITE_CANTOPEN : Nat := 14
def SQLITE_PROTOCOL : Nat := 15
def SQLITE_EMPTY : Nat := 16
def SQLITE_SCHEMA : Nat := 17
def SQLITE_TOOBIG : Nat := 18
def SQLITE_CONSTRAINT : Nat := 19
def SQLITE_MISMATCH : Nat := 20
def SQLITE_MISUSE : Nat := 21
def SQLITE_NOLFS : Nat := 22
def SQLITE_AUTH : Nat := 23
def SQLITE_FORMAT : Nat := 24
def SQLITE_RANGE : Nat := 25
def SQLITE_NOTADB : Nat := 26

def SQLITE_OK_SYMLINK : Nat := SQLITE_OK + 2 * 256
def SQLITE_BUSY_RECOVERY : Nat := SQLITE_BUSY + 1 * 256
def SQLITE_BUSY_SNAPSHOT : Nat := SQLITE_BUSY + 2 * 256
def SQLITE_BUSY_TIMEOUT : Nat := SQLITE_BUSY + 3 * 256
def SQLITE_IOERR_DATA : Nat := SQLITE_IOERR + 32 * 256
def SQLITE_IOERR_CORRUPTFS : Nat := SQLITE_IOERR + 33 * 256
def SQLITE_CORRUPT_INDEX : Nat := SQLITE_CORRUPT + 3 * 256
def SQLITE_CANTOPEN_NOTEMPDIR : Nat := SQLITE_CANTOPEN + 1 * 256
def SQLITE_CANTOPEN_ISDIR : Nat := SQLITE_CANTOPEN + 2 * 256
def SQLITE_CANTOPEN_FULLPATH : Nat := SQLITE_CANTOPEN + 3 * 256
def SQLITE_CANTOPEN_CONVPATH : Nat := SQLITE_CANTOPEN + 4 * 256
def SQLITE_CANTOPEN_DIRTYWAL : Nat := SQLITE_CANTOPEN + 5 * 256
def SQLITE_CANTOPEN_SYMLINK : Nat := SQLITE_CANTOPEN + 6 * 256
def SQLITE_CONSTRAINT_CHECK : Nat := SQLITE_CONSTRAINT + 1 * 256
def SQLITE_CONSTRAINT_COMMITHOOK : Nat := SQLITE_CONSTRAINT + 2 * 256
def SQLITE_CONSTRAINT_FOREIGNKEY : Nat := SQLITE_CONSTRAINT + 3 * 256
def SQLITE_CONSTRAINT_NOTNULL : Nat := SQLITE_CONSTRAINT + 5 * 256
def SQLITE_CONSTRAINT_PRIMARYKEY : Nat := SQLITE_CONSTRAINT + 6 * 256
def SQLITE_CONSTRAINT_TRIGGER : Nat := SQLITE_CONSTRAINT + 7 * 256
def SQLITE_CONSTRAINT_UNIQUE : Nat := SQLITE_CONSTRAINT + 8 * 256
def SQLITE_CONSTRAINT_ROWID : Nat := SQLITE_CONSTRAINT + 10 * 256
def SQLITE_CONSTRAINT_PINNED : Nat := SQLITE_CONSTRAINT + 11 * 256

/-- Modelled from the spec: the engine result codes the layer names,
primary codes and the extended codes of the families the tests exercise,
each paired with its symbolic name (spec §6 result-code surface;
ModuleTests.test_extended_error_code). -/
def errorNames : List (Nat × String) :=
  [(SQLITE_OK, "SQLITE_OK"),
   (SQLITE_ERROR, "SQLITE_ERROR"),
   (SQLITE_INTERNAL, "SQLITE_INTERNAL"),
   (SQLITE_PERM, "SQLITE_PERM"),
   (SQLITE_ABORT, "SQLITE_ABORT"),
   (SQLITE_BUSY, "SQLITE_BUSY"),
   (SQLITE_LOCKED, "SQLITE_LOCKED"),
   (SQLITE_NOMEM, "SQLITE_NOMEM"),
   (SQLITE_READONLY, "SQLITE_READONLY"),
   (SQLITE_INTERRUPT, "SQLITE_INTERRUPT"),
   (SQLITE_IOERR, "SQLITE_IOERR"),
   (SQLITE_CORRUPT, "SQLITE_CORRUPT"),
   (SQLITE_NOTFOUND, "SQLITE_NOTFOUND"),
   (SQLITE_FULL, "SQLITE_FULL"),
   (SQLITE_CANTOPEN, "SQLITE_CANTOPEN"),
   (SQLITE_PROTOCOL, "SQLITE_PROTOCOL"),
   (SQLITE_EMPTY, "SQLITE_EMPTY"),
   (SQLITE_SCHEMA, "SQLITE_SCHEMA"),
   (SQLITE_TOOBIG, "SQLITE_TOOBIG"),
   (SQLITE_CONSTRAINT, "SQLITE_CONSTRAINT"),
   (SQLITE_MISMATCH, "SQLITE_MISMATCH"),
   (SQLITE_MISUSE, "SQLITE_MISUSE"),
   (SQLITE_NOLFS, "SQLITE_NOLFS"),
   (SQLITE_AUTH, "SQLITE_AUTH"),
   (SQLITE_FORMAT, "SQLITE_FORMAT"),
   (SQLITE_RANGE, "SQLITE_RANGE"),
   (SQLITE_NOTADB, "SQLITE_NOTADB"),
   (SQLITE_OK_SYMLINK, "SQLITE_OK_SYMLINK"),
   (SQLITE_BUSY_RECOVERY, "SQLITE_BUSY_RECOVERY"),
   (SQLITE_BUSY_SNAPSHOT, "SQLITE_BUSY_SNAPSHOT"),
   (SQLITE_BUSY_TIMEOUT, "SQLITE_BUSY_TIMEOUT"),
   (SQLITE_IOERR_DATA, "SQLITE_IOERR_DATA"),
   (SQLITE_IOERR_CORRUPTFS, "SQLITE_IOERR_CORRUPTFS"),
   (SQLITE_CORRUPT_INDEX, "SQLITE_CORRUPT_INDEX"),
   (SQLITE_CANTOPEN_NOTEMPDIR, "SQLITE_CANTOPEN_NOTEMPDIR"),
   (SQLITE_CANTOPEN_ISDIR, "SQLITE_CANTOPEN_ISDIR"),
   (SQLITE_CANTOPEN_FULLPATH, "SQLITE_CANTOPEN_FULLPATH"),
   (SQLITE_CANTOPEN_CONVPATH, "SQLITE_CANTOPEN_CONVPATH"),
   (SQLITE_CANTOPEN_DIRTYWAL, "SQLITE_CANTOPEN_DIRTYWAL"),
   (SQLITE_CANTOPEN_SYMLINK, "SQLITE_CANTOPEN_SYMLINK"),
   (SQLITE_CONSTRAINT_CHECK, "SQLITE_CONSTRAINT_CHECK"),
   (SQLITE_CONSTRAINT_COMMITHOOK, "SQLITE_CONSTRAINT_COMMITHOOK"),
   (SQLITE_CONSTRAINT_FOREIGNKEY, "SQLITE_CONSTRAINT_FOREIGNKEY"),
   (SQLITE_CONSTRAINT_NOTNULL, "SQLITE_CONSTRAINT_NOTNULL"),
   (SQLITE_CONSTRAINT_PRIMARYKEY, "SQLITE_CONSTRAINT_PRIMARYKEY"),
   (SQLITE_CONSTRAINT_TRIGGER, "SQLITE_CONSTRAINT_TRIGGER"),
   (SQLITE_CONSTRAINT_UNIQUE, "SQLITE_CONSTRAINT_UNIQUE"),
   (SQLITE_CONSTRAINT_ROWID, "SQLITE_CONSTRAINT_ROWID"),
   (SQLITE_CONSTRAINT_PINNED, "SQLITE_CONSTRAINT_PINNED")]

/-- The symbolic name of a result code. -/
def errorNameOf (code : Nat) : String :=
  match errorNames.find? (fun p => p.1 == code) with
  | some p => p.2
  | none => "SQLITE_UNKNOWN"

/-- Modelled from the spec (§4.4 translate): the exception class selected
by the primary result-code family — constraint violations map to
IntegrityError, API misuse to ProgrammingError, internal invariant
violations to InternalError, size/value overruns to DataError, unsupported
features to NotSupportedError, resource/environment failures to
OperationalError, everything else to DatabaseError. -/
def excKindOfPrimary (primary : Nat) : ExcKind :=
  if primary == SQLITE_CONSTRAINT || primary == SQLITE_MISMATCH then .integrityError
  else if primary == SQLITE_MISUSE then .programmingError
  else if primary == SQLITE_INTERNAL || primary == SQLITE_NOTFOUND then .internalError
  else if primary == SQLITE_TOOBIG then .dataError
  else if primary == SQLITE_NOLFS then .notSupportedError
  else if primary == SQLITE_ERROR || primary == SQLITE_PERM || primary == SQLITE_ABORT ||
      primary == SQLITE_BUSY || primary == SQLITE_LOCKED || primary == SQLITE_NOMEM ||
      primary == SQLITE_READONLY || primary == SQLITE_INTERRUPT || primary == SQLITE_IOERR ||
      primary == SQLITE_FULL || primary == SQLITE_CANTOPEN || primary == SQLITE_PROTOCOL ||
      primary == SQLITE_EMPTY || primary == SQLITE_SCHEMA then .operationalError
  else .databaseError

/-- Modelled from the spec (§4.4): builds the typed exception for an
engine result code, attaching the extended code and its symbolic name as
structured fields. The primary family is the low byte of the code. -/
def translate (extended : Nat) (msg : String) : PyExc :=
  { kind := excKindOfPrimary (extended % 256),
    msg := msg,
    sqlite_errorcode := extended,
    sqlite_errorname := errorNameOf extended }

/-- What a connect target resolves to on the file system. -/
inductive OpenTarget where
  | memory
  | file
  | directory
  deriving DecidableEq

/-- Modelled from the spec (§4.1 open) and
ModuleTests.test_error_code_on_exception: opening a path that cannot be
opened as a database (a directory) fails with a CANTOPEN-family result
code translated by the error taxonomy. -/
def openDatabase : OpenTarget → Except PyExc Connection
  | .directory => .error (translate SQLITE_CANTOPEN "unable to open database file")
  | _ => .ok freshConn

/-- Modelled from the spec (§4.4) and
ModuleTests.test_extended_error_code_on_exception: inserting a value that
violates a CHECK constraint makes the engine report the extended code
SQLITE_CONSTRAINT_CHECK, which the layer translates. -/
def insertIntoCheckedTable (check : Int → Bool) (v : Int) : Except PyExc Unit :=
  if check v then .ok ()
  else .error (translate SQLITE_CONSTRAINT_CHECK "CHECK constraint failed: t")

/-! ## Values, rows, and the fetch interface (spec §4.2) -/

/-- An engine value as surfaced by the layer. -/
inductive SqlValue where
  | null
  | int (n : Int)
  | text (s : String)
  deriving DecidableEq

/-- A result row. -/
abbrev Row := List SqlValue

/-- Modelled from the spec: the fetch-side state of a Cursor — the pending
rows of the current result set and the arraysize default. -/
structure FetchCursor where
  pending : List Row
  arraysize : Nat := 1
  deriving DecidableEq

/-- Modelled from the spec (§4.2 fetchone): next row, or none if the
result set is exhausted or absent. -/
def fetchone (c : FetchCursor) : Option Row × FetchCursor :=
  match c.pending with
  | [] => (none, c)
  | r :: rs => (some r, { c with pending := rs })

/-- Modelled from the spec (§4.2 fetchall): all remaining rows; empty if
none remain. -/
def fetchall (c : FetchCursor) : List Row × FetchCursor :=
  (c.pending, { c with pending := [] })

/-- Modelled from the spec (§4.2 fetchmany): up to `size` rows; fewer if
exhausted, empty if none remain. -/
def fetchmany (c : FetchCursor) (size : Nat) : List Row × FetchCursor :=
  (c.pending.take size, { c with pending := c.pending.drop size })

/-! ## A table with a UNIQUE column and INSERT OR IGNORE (spec §4.2,
lastrowid conflict-resolution policy) -/

/-- Modelled from the spec: a table whose second column carries a UNIQUE
constraint; rows pair an integer rowid with the constrained value, and
`nextId` is the rowid the next successful insert will use. -/
structure UniqueTable where
  rows : List (Nat × Option String)
  nextId : Nat
  deriving DecidableEq

/-- How many rows of the table hold the given value in the UNIQUE column. -/
def countValue (t : UniqueTable) (v : String) : Nat :=
  t.rows.countP (fun r => r.2 == some v)

/-- The per-cursor state that INSERT-family statements update. -/
structure CursorIds where
  lastrowid : Option Nat
  deriving DecidableEq

/-- Modelled from the spec (§4.2 lastrowid conflict-resolution policy):
INSERT OR IGNORE inserts the value and sets lastrowid when no row holds it
yet; on a conflicting row it completes without raising, changes nothing,
and leaves lastrowid unchanged from the prior successful insert. -/
def insertOrIgnore (t : UniqueTable) (cur : CursorIds) (v : String) :
    Except PyExc (UniqueTable × CursorIds) :=
  if t.rows.any (fun r => r.2 == some v) then
    .ok (t, cur)
  else
    .ok ({ rows := t.rows ++ [(t.nextId, some v)], nextId := t.nextId + 1 },
         { lastrowid := some t.nextId })

/-! ## Text round-trips, embedded nulls included (spec §8 round-trip) -/

/-- A single-text-column table keyed by rowid. -/
structure TextTable where
  rows : List (Nat × SqlValue)
  nextId : Nat
  deriving DecidableEq

/-- Modelled from the spec (§8 round-trip): a bound text parameter is
stored with its full contents, embedded null characters included. -/
def bindText (s : String) : SqlValue := .text s

/-- Inserts a bound text value, returning the new table and the rowid the
engine assigned (the statement lastrowid). -/
def insertTextRow (t : TextTable) (s : String) : TextTable × Nat :=
  ({ rows := (t.nextId, bindText s) :: t.rows, nextId := t.nextId + 1 }, t.nextId)

/-- The result set of selecting the text column of the row with the given
rowid. -/
def selectById (t : TextTable) (rid : Nat) : List Row :=
  (t.rows.filter (fun r => r.1 == rid)).map (fun r => [r.2])

/-! ## Parameter containers (spec §4.2 execute, §7 propagation policy) -/

/-- Modelled from the spec (§9 dynamic duck-typed parameter containers):
a caller-supplied positional container, polymorphic over length
measurement and indexed access, either of which may raise an arbitrary
exception from user code. -/
structure ParamSource where
  lenResult : Except PyExc Nat
  itemAt : Nat → Except PyExc SqlValue

def bindingCountErr : PyExc :=
  { kind := .programmingError,
    msg := "Incorrect number of bindings supplied" }

/-- Modelled from the spec (§4.2 execute, §7): execute measures the
parameter container first, propagating any exception raised there
verbatim; a successfully measured length that does not match the
placeholder count is the only ProgrammingError this step produces, after
which each value is fetched by index, again propagating exceptions
verbatim. -/
def bindEach (p : ParamSource) : List Nat → Except PyExc (List SqlValue)
  | [] => .ok []
  | i :: is => do
    let v ← p.itemAt i
    let rest ← bindEach p is
    .ok (v :: rest)

def cursorExecute (placeholders : Nat) (p : ParamSource) :
    Except PyExc (List SqlValue) := do
  let n ← p.lenResult
  if n = placeholders then
    bindEach p (List.range n)
  else
    .error bindingCountErr

/-- A container whose length computation raises ZeroDivisionError, as in
CursorTests.test_execute_param_sequence_bad_len. -/
def zeroDivisionExc : PyExc := { kind := .zeroDivisionError, msg := "division by zero" }

def badLenParams : ParamSource :=
  { lenResult := .error zeroDivisionExc, itemAt := fun _ => .ok (.text "foo") }

/-! ## executescript input validation (spec §4.2 executescript;
ExtensionTests) -/

/-- An executescript argument: either text, given as its sequence of code
points (which, unlike a host string, may contain unpaired surrogates), or
a binary blob. -/
inductive ScriptInput where
  | text (cps : List Nat)
  | blob (bytes : List Nat)
  deriving DecidableEq

/-- Whether a code point is an unpaired-surrogate code point. -/
def isSurrogateCp (c : Nat) : Bool := 0xD800 ≤ c && c ≤ 0xDFFF

def surrogateEncodeErr : PyExc :=
  { kind := .unicodeEncodeError, msg := "utf-8 codec cannot encode surrogates" }

def scriptTypeErr : PyExc :=
  { kind := .interfaceError, msg := "script operation parameter must be str" }

def embeddedNullErr : PyExc :=
  { kind := .valueError, msg := "embedded null character" }

/-- Modelled from the spec (§4.2 executescript) and
ExtensionTests.test_cursor_executescript_with_surrogates: the script must
be text (binary input is the spec-stated InterfaceError-equivalent); the
text is encoded to UTF-8 before reaching the engine, so an unpaired
surrogate raises UnicodeEncodeError; an embedded null character raises the
ValueError-equivalent; otherwise any open transaction is committed and the
script runs. -/
def executescript (c : Connection) (sql : ScriptInput) :
    Except PyExc Connection :=
  if c.initialized = false then .error baseInitErr
  else if c.closed = true then .error closedErr
  else
    match sql with
    | .blob _ => .error scriptTypeErr
    | .text cps =>
      if cps.any isSurrogateCp then .error surrogateEncodeErr
      else if cps.any (fun cp => cp == 0) then .error embeddedNullErr
      else .ok { c with in_transaction := false }

/-! ## Opening a connection with an isolation level (spec §4.1 open,
§6 isolation-level surface) -/

/-- Modelled from the spec (§4.1 open): constructing a connection parses
the isolation_level argument (None is the autocommit sentinel), failing
with ValueError on an unrecognized string. -/
def connect (isoArg : Option String) : Except PyExc Connection :=
  (parseIsolationLevel isoArg).map fun lvl => { freshConn with isolation_level := lvl }

/-- The five accepted isolation_level arguments. -/
def acceptedIsolationArgs : List (Option String) :=
  [none, some "", some "DEFERRED", some "IMMEDIATE", some "EXCLUSIVE"]

def exceptIsOk {ε α : Type} : Except ε α → Bool
  | .ok _ => true
  | .error _ => false

/-- Connect with the given isolation level, then execute a statement on
the resulting connection. -/
def connectAndExecute (isoArg : Option String) :
    Except PyExc (Connection × OpResult) :=
  (connect isoArg).bind fun c => runConnOp c ConnOp.execute

/-- A concrete table for the INSERT OR IGNORE scenario: one prior row, as
in CursorTests setUp, so the next rowid is 2. -/
def c2Table : UniqueTable := { rows := [(1, none)], nextId := 2 }

/-- The cursor state after the prior successful insert of rowid 1. -/
def c2Cursor : CursorIds := { lastrowid := some 1 }

/-- An empty text table for the embedded-null round-trip scenario. -/
def emptyTextTable : TextTable := { rows := [], nextId := 1 }

/-! ## Theorems -/

/-- C1 (counterexample): on a fresh connection whose isolation_level is
not the autocommit sentinel and with no transaction open, executing a DDL
statement (CREATE TABLE) issues no implicit BEGIN and leaves
in_transaction false — contradicting the claim that DDL equivalents of
DML open a transaction; test_in_transaction asserts exactly this. -/
theorem c1_ddl_counterexample :
    freshConn.isolation_level ≠ IsolationLevel.autocommit ∧
    freshConn.in_transaction = false ∧
    (execStmt freshConn Stmt.createTable).2 = false ∧
    (execStmt freshConn Stmt.createTable).1.in_transaction = false := by
  refine ⟨by decide, rfl, by decide, by decide⟩

/-- C1 (amended): when the isolation level is not the autocommit sentinel
and no transaction is open, the first DML statement
(INSERT/UPDATE/DELETE/REPLACE) implicitly issues a BEGIN before executing,
so in_transaction is true immediately afterwards; a DDL statement such as
CREATE TABLE issues no implicit BEGIN and leaves in_transaction false. -/
theorem c1_implicit_begin_dml_only (c : Connection) (s : Stmt)
    (hiso : c.isolation_level ≠ IsolationLevel.autocommit)
    (htx : c.in_transaction = false) (hdml : s.isDml = true) :
    (execStmt c s).2 = true ∧
    (execStmt c s).1.in_transaction = true ∧
    (execStmt c Stmt.createTable).2 = false ∧
    (execStmt c Stmt.createTable).1.in_transaction = false := by
  have hcond : c.isolation_level ≠ IsolationLevel.autocommit ∧
      c.in_transaction = false ∧ s.isDml = true := ⟨hiso, htx, hdml⟩
  have hneg : ¬(c.isolation_level ≠ IsolationLevel.autocommit ∧
      c.in_transaction = false ∧ Stmt.createTable.isDml = true) := by
    intro hcontra
    exact absurd hcontra.2.2 (by decide)
  refine ⟨?_, ?_, ?_, ?_⟩
  · simp only [execStmt, if_pos hcond]
  · simp only [execStmt, if_pos hcond]
  · simp only [execStmt, if_neg hneg]
  · simp only [execStmt, if_neg hneg]
    exact htx

/-- C1 (witness): the amended claim evaluated on a fresh connection and an
INSERT statement. -/
theorem c1_implicit_begin_dml_only_witness :
    (execStmt freshConn Stmt.insert).2 = true ∧
    (execStmt freshConn Stmt.insert).1.in_transaction = true ∧
    (execStmt freshConn Stmt.createTable).2 = false ∧
    (execStmt freshConn Stmt.createTable).1.in_transaction = false :=
  c1_implicit_begin_dml_only freshConn Stmt.insert (by decide) rfl rfl

/-- C3: on a closed (and properly initialized) connection, execute,
executemany, executescript, cursor, commit, rollback, create_function and
entering the context manager all raise ProgrammingError; a second close is
a no-op; and every execute/fetch operation of a cursor belonging to the
closed connection raises ProgrammingError. -/
theorem c3_use_after_close (c : Connection)
    (hi : c.initialized = true) (hc : c.closed = true) :
    (∀ op ∈ closedCheckedOps, runConnOp c op = .error closedErr) ∧
    runConnOp c ConnOp.close = .ok (c, OpResult.unit) ∧
    (∀ cop : CursorOp, runCursorOp c cop = .error closedErr) := by
  refine ⟨?_, ?_, ?_⟩
  · intro op hop
    simp only [closedCheckedOps, List.mem_cons, List.not_mem_nil, or_false] at hop
    rcases hop with rfl | rfl | rfl | rfl | rfl | rfl | rfl | rfl <;>
      simp [runConnOp, hi, hc]
  · simp [runConnOp, hi, hc]
  · intro cop
    simp [runCursorOp, hi, hc]

/-- C3 (witness): the closed-connection contract evaluated on a concrete
closed connection. -/
theorem c3_use_after_close_witness :
    (∀ op ∈ closedCheckedOps, runConnOp closedConn op = .error closedErr) ∧
    runConnOp closedConn ConnOp.close = .ok (closedConn, OpResult.unit) ∧
    (∀ cop : CursorOp, runCursorOp closedConn cop = .error closedErr) :=
  c3_use_after_close closedConn rfl rfl

/-- C7: once fetchall has drained the result set, every subsequent
fetchone returns none, every subsequent fetchall returns the empty
sequence, and every subsequent fetchmany returns the empty sequence. -/
theorem c7_fetch_exhaustion_idempotent (c : FetchCursor) (n : Nat) :
    (fetchone (fetchall c).2).1 = none ∧
    (fetchall (fetchall c).2).1 = [] ∧
    (fetchmany (fetchall c).2 n).1 = [] := by
  refine ⟨rfl, rfl, ?_⟩
  simp [fetchall, fetchmany]

/-- C9: every operation on a Connection whose base initializer never ran —
reading isolation_level, total_changes or in_transaction, and calling
iterdump, cursor or close — raises ProgrammingError with the message
Base Connection.__init__ not called. -/
theorem c9_uninitialized_operations (op : ConnOp) :
    runConnOp uninitConn op =
      .error { kind := ExcKind.programmingError,
               msg := "Base Connection.__init__ not called" } := by
  cases op <;> rfl

/-- C2: on a table whose column carries a UNIQUE constraint and does not
yet contain the value, INSERT OR IGNORE of the value succeeds, and a
second INSERT OR IGNORE of the same value completes without raising,
changes neither the table nor the cursor (so lastrowid is unchanged from
the prior successful insert), and the table contains exactly one row with
that value. -/
theorem c2_insert_or_ignore_idempotent (t : UniqueTable) (cur : CursorIds)
    (v : String) (h : countValue t v = 0) :
    ∃ t1 cur1,
      insertOrIgnore t cur v = .ok (t1, cur1) ∧
      insertOrIgnore t1 cur1 v = .ok (t1, cur1) ∧
      cur1.lastrowid = some t.nextId ∧
      countValue t1 v = 1 := by
  have hnone : ∀ r ∈ t.rows, ¬((r.2 == some v) = true) := by
    intro r hr
    exact List.countP_eq_zero.mp h r hr
  have hany : t.rows.any (fun r => r.2 == some v) = false := by
    rw [Bool.eq_false_iff]
    intro hcontra
    obtain ⟨r, hr, hp⟩ := List.any_eq_true.mp hcontra
    exact hnone r hr hp
  have hmem : ∀ l : List (Nat × Option String),
      (l ++ [(t.nextId, some v)]).any (fun r => r.2 == some v) = true := by
    intro l
    simp [List.any_append]
  refine ⟨{ rows := t.rows ++ [(t.nextId, some v)], nextId := t.nextId + 1 },
          { lastrowid := some t.nextId }, ?_, ?_, rfl, ?_⟩
  · simp [insertOrIgnore, hany]
  · simp [insertOrIgnore, hmem]
  · simp only [countValue] at h ⊢
    simp [List.countP_append, List.countP_cons, h]

/-- C2 (witness): the INSERT OR IGNORE scenario of the test suite — one
prior row, two INSERT OR IGNORE calls with the value test. -/
theorem c2_insert_or_ignore_idempotent_witness :
    ∃ t1 cur1,
      insertOrIgnore c2Table c2Cursor "test" = .ok (t1, cur1) ∧
      insertOrIgnore t1 cur1 "test" = .ok (t1, cur1) ∧
      cur1.lastrowid = some c2Table.nextId ∧
      countValue t1 "test" = 1 :=
  c2_insert_or_ignore_idempotent c2Table c2Cursor "test" (by decide)

/-- C4: constructing a connection with an isolation_level string other
than the empty string, DEFERRED, IMMEDIATE, EXCLUSIVE or the autocommit
sentinel fails with ValueError, and each of the five accepted values
yields a connection on which a statement executes successfully. -/
theorem c4_isolation_level_surface (isoArg : Option String)
    (h : isoArg ∉ acceptedIsolationArgs) :
    connect isoArg = .error isolationLevelValueErr ∧
    acceptedIsolationArgs.all (fun a => exceptIsOk (connectAndExecute a)) = true := by
  constructor
  · match isoArg with
    | none => exact absurd (by simp [acceptedIsolationArgs]) h
    | some s =>
      simp only [acceptedIsolationArgs, List.mem_cons, List.not_mem_nil, or_false,
        not_or] at h
      obtain ⟨-, h1, h2, h3, h4⟩ := h
      simp only [Option.some.injEq] at h1 h2 h3 h4
      simp [connect, parseIsolationLevel, h1, h2, h3, h4, Except.map]
  · decide

/-- C4 (witness): the rejected string BOGUS, together with the five
accepted values each yielding an executable connection. -/
theorem c4_isolation_level_surface_witness :
    connect (some "BOGUS") = .error isolationLevelValueErr ∧
    acceptedIsolationArgs.all (fun a => exceptIsOk (connectAndExecute a)) = true :=
  c4_isolation_level_surface (some "BOGUS") (by decide)

/-- C5: an exception raised by the parameter container while execute
measures its length, or while it fetches an item, propagates to the caller
exactly as raised, never replaced by or wrapped in ProgrammingError. -/
theorem c5_param_exception_propagates (placeholders : Nat) (p : ParamSource)
    (e : PyExc) :
    (p.lenResult = .error e → cursorExecute placeholders p = .error e) ∧
    (p.lenResult = .ok 1 → placeholders = 1 → p.itemAt 0 = .error e →
      cursorExecute placeholders p = .error e) := by
  constructor
  · intro h
    unfold cursorExecute
    rw [h]
    rfl
  · intro h1 h2 h3
    subst h2
    unfold cursorExecute
    rw [h1]
    show bindEach p [0] = Except.error e
    simp only [bindEach, h3]
    rfl

/-- C5 (witness): a container whose length computation raises
ZeroDivisionError makes execute surface exactly that ZeroDivisionError. -/
theorem c5_param_exception_propagates_witness :
    cursorExecute 1 badLenParams = .error zeroDivisionExc :=
  (c5_param_exception_propagates 1 badLenParams zeroDivisionExc).1 rfl

/-- C6: every named result code carries a symbolic name that starts with
its primary family name; failing to open a database yields an exception
whose structured sqlite_errorcode/sqlite_errorname fields name the
CANTOPEN family; a CHECK-constraint violation yields IntegrityError whose
code is the SQLITE_CONSTRAINT_CHECK extended code and whose name is
SQLITE_CONSTRAINT_CHECK. -/
theorem c6_result_code_surface :
    (errorNames.all
      (fun p => (errorNameOf (p.1 % 256)).data.isPrefixOf p.2.data) = true) ∧
    (∃ e, openDatabase OpenTarget.directory = .error e ∧
      e.sqlite_errorcode = SQLITE_CANTOPEN ∧
      "SQLITE_CANTOPEN".data.isPrefixOf e.sqlite_errorname.data = true) ∧
    (∃ e, insertIntoCheckedTable (fun n => decide (0 < n)) (-1) = .error e ∧
      e.kind = ExcKind.integrityError ∧
      e.sqlite_errorcode = SQLITE_CONSTRAINT_CHECK ∧
      e.sqlite_errorname = "SQLITE_CONSTRAINT_CHECK") := by
  refine ⟨by decide, ⟨_, rfl, by decide, by decide⟩, ⟨_, rfl, by decide, by decide, by decide⟩⟩

/-- C8: binding a text value containing an embedded null character,
inserting it, selecting the row back by the statement lastrowid and
fetching it returns the exact original string, null included. -/
theorem c8_embedded_null_roundtrip (t : TextTable) (s : String)
    (h : Char.ofNat 0 ∈ s.data) :
    (fetchone { pending := selectById (insertTextRow t s).1 (insertTextRow t s).2,
                arraysize := 1 }).1 = some [SqlValue.text s] := by
  simp [insertTextRow, selectById, bindText, fetchone]

/-- C8 (witness): the round-trip evaluated on the string of the test
suite, which embeds a null character. -/
theorem c8_embedded_null_roundtrip_witness :
    (fetchone { pending := selectById (insertTextRow emptyTextTable "Hu\x00go").1
                  (insertTextRow emptyTextTable "Hu\x00go").2,
                arraysize := 1 }).1 = some [SqlValue.text "Hu\x00go"] :=
  c8_embedded_null_roundtrip emptyTextTable "Hu\x00go" (by decide)

/-- C10: executescript on SQL text containing an unpaired surrogate code
point raises UnicodeEncodeError — which is not a DatabaseError-family
class — while binary input raises the InterfaceError-equivalent and an
embedded null character raises the ValueError-equivalent. -/
theorem c10_executescript_surrogates (c : Connection) (cps : List Nat)
    (hi : c.initialized = true) (hc : c.closed = false)
    (hs : cps.any isSurrogateCp = true) :
    executescript c (.text cps) = .error surrogateEncodeErr ∧
    surrogateEncodeErr.kind.isDatabaseFamily = false ∧
    executescript c (.blob [0x41]) = .error scriptTypeErr ∧
    executescript c (.text [0x63, 0]) = .error embeddedNullErr := by
  refine ⟨?_, rfl, ?_, ?_⟩
  · simp [executescript, hi, hc, hs]
  · simp [executescript, hi, hc]
  · simp [executescript, hi, hc]
    decide

/-- C10 (witness): the rejection cases evaluated on a fresh connection,
with the unpaired surrogate U+D8FF of the test suite. -/
theorem c10_executescript_surrogates_witness :
    executescript freshConn (.text [0xD8FF]) = .error surrogateEncodeErr ∧
    surrogateEncodeErr.kind.isDatabaseFamily = false ∧
    executescript freshConn (.blob [0x41]) = .error scriptTypeErr ∧
    executescript freshConn (.text [0x63, 0]) = .error embeddedNullErr :=
  c10_executescript_surrogates freshConn [0xD8FF] rfl rfl (by decide)

end Sqlite
